import Mathlib

/-!
Verification of the cloud-function logging helper (`loggingutil.py`).

The module configures Google Cloud Logging on import, installs a log-record
factory that enriches every record with static (deployment) and request
(trace) context, and registers a Flask before-request hook that populates
the request context from inbound headers.  This file gives a shallow
embedding of those operations and proves properties about them.
-/

namespace LoggingUtil

/-- Python string truthiness for strings: a string is truthy iff nonempty. -/
def pyStrTruthy (s : String) : Bool := !s.data.isEmpty

/-- Python truthiness of an optional string: `None` and `""` are falsy. -/
def pyTruthyOpt : Option String → Bool
  | none => false
  | some s => pyStrTruthy s

/-- Python `str.split(sep)` on a list of characters for a single-character
separator: splits at every occurrence of `sep`; the empty input yields
`[[]]` (Python: `"".split('-') == ['']`). -/
def pySplitAux (sep : Char) : List Char → List (List Char)
  | [] => [[]]
  | c :: cs =>
    if c = sep then
      [] :: pySplitAux sep cs
    else
      match pySplitAux sep cs with
      | [] => [[c]]
      | g :: gs => (c :: g) :: gs

/-- Python `s.split(sep)` for a single-character separator, on strings. -/
def pySplit (sep : Char) (s : String) : List String :=
  (pySplitAux sep s.data).map String.mk

/-- The per-thread request context (`_LOGGER_REQUEST_CONTEXT` attributes);
`getattr(ctx, field, None)` semantics make each field an optional string,
defaulting to absent. -/
structure RequestContext where
  trace : Option String := none
  span_id : Option String := none
  execution_id : Option String := none
deriving DecidableEq, Repr

/-- The process-wide static context dictionary (`_LOGGER_FUNCTION_CONTEXT`).
The module itself populates `project_id`, `function_region` and
`function_name` from environment variables (possibly `None`); a `labels`
key is read with `dict.get` and is only present if configured externally. -/
structure FunctionContext where
  project_id : Option String := none
  function_region : Option String := none
  function_name : Option String := none
  labels : Option (List (String × String)) := none
deriving DecidableEq, Repr

/-- The `google.cloud.logging_v2.resource.Resource` value built by the
record factory: a type tag plus a labels dictionary whose values may be
`None`. -/
structure Resource where
  type : String
  labels : List (String × Option String)
deriving DecidableEq, Repr

/-- A log record as produced by `_new_log_factory`: the base record built by
the wrapped (previous) record factory, plus the optional attributes the
factory `setattr`s on it.  An attribute the factory does not set is absent. -/
structure EnrichedRecord (B : Type) where
  base : B
  resource : Option Resource := none
  trace : Option String := none
  span_id : Option String := none
  labels : Option (List (String × String)) := none
deriving Repr

/-- `_new_log_factory(*args, **kwargs)`: builds the base record with the
previous factory, attaches a `cloud_function` resource built from the
static context unconditionally, then attaches `trace`, `span_id` and
`labels` only when the corresponding request-context field is truthy;
the labels mapping is the static context's `labels` entry when present,
else the single-key `execution_id` fallback. -/
def new_log_factory {A B : Type} (old_log_factory : A → B)
    (fctx : FunctionContext) (rctx : RequestContext) (args : A) :
    EnrichedRecord B :=
  let record : EnrichedRecord B := { base := old_log_factory args }
  let resource : Resource :=
    { type := "cloud_function"
      labels := [("project_id", fctx.project_id),
                 ("region", fctx.function_region),
                 ("function_name", fctx.function_name)] }
  let record := { record with resource := some resource }
  let record :=
    if pyTruthyOpt rctx.trace then { record with trace := rctx.trace }
    else record
  let record :=
    if pyTruthyOpt rctx.span_id then { record with span_id := rctx.span_id }
    else record
  match rctx.execution_id with
  | some eid =>
    if pyStrTruthy eid then
      { record with labels := some (fctx.labels.getD [("execution_id", eid)]) }
    else record
  | none => record

/-- The Flask `before_req` hook.  Inputs are the two headers it reads
(`Traceparent` and `Function-Execution-Id`, each absent when the request
lacks it) and the thread-local request context before the hook runs.
Returns `ok` with the updated context on normal completion, and `error`
with the partially updated context when a list index is out of range
(Python `IndexError` from `trace[1]` or `trace[2]`), which propagates out
of the hook. -/
def before_req (traceparent : Option String) (execution_id_header : Option String)
    (ctx : RequestContext) : Except RequestContext RequestContext :=
  let afterTrace : Except RequestContext RequestContext :=
    match traceparent with
    | none => .ok ctx
    | some h =>
      if pyStrTruthy h then
        let trace := pySplit '-' h
        match trace.get? 1 with
        | none => .error ctx
        | some t =>
          let ctx1 := { ctx with trace := some t }
          match trace.get? 2 with
          | none => .error ctx1
          | some s => .ok { ctx1 with span_id := some s }
      else .ok ctx
  match afterTrace with
  | .error c => .error c
  | .ok c => .ok { c with execution_id := execution_id_header }

/-- Whether an `Except` result is a normal (non-raising) completion. -/
def exceptOk {ε α : Type} : Except ε α → Bool
  | .ok _ => true
  | .error _ => false

/-- A handler on the root logger, abstracted to what the startup code can
observe: whether it is an instance of `logging.StreamHandler`, and whether
it is the handler installed by the cloud client's `setup_logging()`. -/
structure Handler where
  isStreamHandler : Bool
  isBackend : Bool
deriving DecidableEq, Repr

/-- The duplicate-handler removal on the root logger's handler list:
`if len(h) > 2 and isinstance(h[0], StreamHandler) and isinstance(h[1],
StreamHandler): del h[0]; del h[0]`. -/
def remove_dup_handlers : List Handler → List Handler
  | h0 :: h1 :: h2 :: rest =>
    if h0.isStreamHandler && h1.isStreamHandler then h2 :: rest
    else h0 :: h1 :: h2 :: rest
  | hs => hs

/-- A generic console handler: a stream handler that is not the backend's. -/
def genericConsole (h : Handler) : Bool := h.isStreamHandler && !h.isBackend

/-- The duplicate pattern described by the specification: the list starts
with two generic console handlers followed by at least one handler, among
which is a backend handler. -/
def dupPattern : List Handler → Bool
  | h0 :: h1 :: rest =>
    genericConsole h0 && genericConsole h1 && !rest.isEmpty &&
      rest.any (fun h => h.isBackend)
  | _ => false

/-- `threading.local()` storage, modelled as a map from OS-thread identity
to the stored request context (each thread sees its own slot; every flow
scheduled on the same thread shares that slot). -/
def ThreadLocal : Type := Nat → RequestContext

/-- Assigning the request-context attributes from the flow running on
thread `tid` overwrites that thread's slot only. -/
def threadLocalSet (store : ThreadLocal) (tid : Nat) (ctx : RequestContext) :
    ThreadLocal :=
  fun t => if t = tid then ctx else store t

/-- Reading the request context from the flow running on thread `tid`. -/
def threadLocalGet (store : ThreadLocal) (tid : Nat) : RequestContext :=
  store tid

/-- `logging.DEBUG`. -/
def DEBUG : Nat := 10

/-- `logging.INFO`. -/
def INFO : Nat := 20

/-- `logging.WARNING`. -/
def WARNING : Nat := 30

/-- The module's `__name__`, the key `LogFactory` passes to `getLogger`. -/
def moduleName : String := "loggingutil"

/-- A logger as `LogFactory` observes it: the name it is registered under
and its level after `setLevel`. -/
structure Logger where
  name : String
  level : Nat
deriving DecidableEq, Repr

/-- `LogFactory(name, log_level=logging.INFO, debug=False)`: fetches the
logger registered under the module's own `__name__` (the `name` argument
is never used) and sets its level to `DEBUG` when `debug` is true, else to
`log_level`. -/
def LogFactory (name : String) (log_level : Nat) (debug : Bool) : Logger :=
  { name := moduleName
    level := if debug then DEBUG else log_level }

/-! Helper lemmas about the split function. -/

/-- Splitting a separator-free character list yields that list alone. -/
theorem pySplitAux_no_sep (sep : Char) (cs : List Char) (h : sep ∉ cs) :
    pySplitAux sep cs = [cs] := by
  induction cs with
  | nil => rfl
  | cons c cs ih =>
    have hc : ¬ c = sep := fun hceq => h (hceq ▸ List.mem_cons_self c cs)
    have hcs : sep ∉ cs := fun hm => h (List.mem_cons_of_mem c hm)
    simp [pySplitAux, hc, ih hcs]

/-- Splitting peels off a leading separator-free group at the first
separator. -/
theorem pySplitAux_append (sep : Char) (v rest : List Char) (h : sep ∉ v) :
    pySplitAux sep (v ++ sep :: rest) = v :: pySplitAux sep rest := by
  induction v with
  | nil => simp [pySplitAux]
  | cons c v ih =>
    have hc : ¬ c = sep := fun hceq => h (hceq ▸ List.mem_cons_self c v)
    have hv : sep ∉ v := fun hm => h (List.mem_cons_of_mem c hm)
    simp [pySplitAux, hc, ih hv]

/-- Splitting a four-segment dash-delimited header recovers the segments. -/
theorem pySplit_four (v t s f : String)
    (hv : '-' ∉ v.data) (ht : '-' ∉ t.data) (hs : '-' ∉ s.data)
    (hf : '-' ∉ f.data) :
    pySplit '-' (v ++ "-" ++ t ++ "-" ++ s ++ "-" ++ f) = [v, t, s, f] := by
  have hdata : (v ++ "-" ++ t ++ "-" ++ s ++ "-" ++ f).data
      = v.data ++ '-' :: (t.data ++ '-' :: (s.data ++ '-' :: f.data)) := by
    simp [String.data_append]
  rw [pySplit, hdata, pySplitAux_append _ _ _ hv, pySplitAux_append _ _ _ ht,
    pySplitAux_append _ _ _ hs, pySplitAux_no_sep _ _ hf]
  rfl

/-- A four-segment dash-delimited header is a nonempty, hence truthy,
string. -/
theorem pyStrTruthy_four (v t s f : String) :
    pyStrTruthy (v ++ "-" ++ t ++ "-" ++ s ++ "-" ++ f) = true := by
  simp [pyStrTruthy, String.data_append]

/-! Claim theorems. -/

/-- C1 counterexample: the header `"a"` has fewer than 3 dash-separated
segments, yet the hook raises (`IndexError` from `trace[1]`) instead of
returning absent/absent. -/
theorem before_req_malformed_raises_cex :
    (pySplit '-' "a").length < 3 ∧
    before_req (some "a") none ⟨none, none, none⟩ =
      .error ⟨none, none, none⟩ :=
  ⟨by decide, rfl⟩

/-- C1 (amended): an absent trace header is handled silently (the hook
completes, leaving trace/span untouched and overwriting the execution id),
but a present, truthy header with fewer than 3 dash-separated segments
makes the hook raise an index error, failing the request. -/
theorem before_req_malformed_behavior :
    (∀ (eid : Option String) (ctx : RequestContext),
      before_req none eid ctx = .ok { ctx with execution_id := eid }) ∧
    (∀ (h : String) (eid : Option String) (ctx : RequestContext),
      pyStrTruthy h = true → (pySplit '-' h).length < 3 →
      exceptOk (before_req (some h) eid ctx) = false) := by
  refine ⟨fun eid ctx => rfl, fun h eid ctx htr hlen => ?_⟩
  have h2 : (pySplit '-' h)[2]? = none := by
    rw [List.getElem?_eq_none_iff]
    omega
  cases hg1 : (pySplit '-' h)[1]? with
  | none => simp [before_req, htr, hg1, exceptOk]
  | some t => simp [before_req, htr, hg1, h2, exceptOk]

/-- Witness for C1 (amended) at the concrete malformed header `"a"`. -/
theorem before_req_malformed_behavior_witness :
    pyStrTruthy "a" = true ∧ (pySplit '-' "a").length < 3 ∧
    exceptOk (before_req (some "a") none ⟨none, none, none⟩) = false :=
  ⟨by decide, by decide,
    before_req_malformed_behavior.2 "a" none ⟨none, none, none⟩
      (by decide) (by decide)⟩

/-- C2 counterexample: with no trace header, previously set trace/span
values on the same thread-local storage persist; only the execution id is
overwritten. -/
theorem before_req_no_header_stale_cex :
    before_req none none ⟨some "stale-trace", some "stale-span", some "stale-exec"⟩ =
      .ok ⟨some "stale-trace", some "stale-span", none⟩ := rfl

/-- C2 (amended): the hook always overwrites the execution id with the
header value (absent when missing), but overwrites trace and span only
when a truthy trace header is present — with an absent or empty header the
flow's previous trace/span values persist. -/
theorem before_req_no_header_overwrites_execution_only
    (eid : Option String) (ctx : RequestContext) :
    before_req none eid ctx = .ok ⟨ctx.trace, ctx.span_id, eid⟩ ∧
    before_req (some "") eid ctx = .ok ⟨ctx.trace, ctx.span_id, eid⟩ :=
  ⟨rfl, rfl⟩

/-- C3: when the static context carries an explicitly configured `labels`
mapping and the request context has a truthy execution id, the record's
labels equal the explicit mapping, not the single-key fallback. -/
theorem labels_explicit_precedence {A B : Type} (old : A → B)
    (fctx : FunctionContext) (rctx : RequestContext) (args : A)
    (m : List (String × String)) (hm : fctx.labels = some m)
    (he : pyTruthyOpt rctx.execution_id = true) :
    (new_log_factory old fctx rctx args).labels = some m := by
  cases hx : rctx.execution_id with
  | none => rw [hx] at he; simp [pyTruthyOpt] at he
  | some eid =>
    rw [hx] at he
    simp only [pyTruthyOpt] at he
    simp [new_log_factory, hx, hm, he]

/-- Witness for C3 with a concrete explicit mapping and execution id. -/
theorem labels_explicit_precedence_witness :
    ({ labels := some [("team", "core")] } : FunctionContext).labels =
      some [("team", "core")] ∧
    pyTruthyOpt ({ execution_id := some "exec-9" } : RequestContext).execution_id
      = true ∧
    (new_log_factory (fun n : Nat => n) { labels := some [("team", "core")] }
      { execution_id := some "exec-9" } 0).labels = some [("team", "core")] :=
  ⟨rfl, rfl,
    labels_explicit_precedence (fun n : Nat => n)
      { labels := some [("team", "core")] } { execution_id := some "exec-9" } 0
      [("team", "core")] rfl rfl⟩

/-- C4: every record built by the installed factory carries a non-null
`cloud_function` resource whose labels are the static context's project,
region and function name — unconditionally, for every static and request
context. -/
theorem resource_attached_unconditionally {A B : Type} (old : A → B)
    (fctx : FunctionContext) (rctx : RequestContext) (args : A) :
    (new_log_factory old fctx rctx args).resource =
      some { type := "cloud_function"
             labels := [("project_id", fctx.project_id),
                        ("region", fctx.function_region),
                        ("function_name", fctx.function_name)] } := by
  cases hx : rctx.execution_id <;>
    simp [new_log_factory, hx] <;> split_ifs <;> rfl

/-- C5: for a well-formed four-segment header, the hook stores exactly the
second segment as trace and the third as span, independent of the version
and flags segments, and overwrites the execution id with its header. -/
theorem parse_wellformed_header (v t s f : String) (eid : Option String)
    (ctx : RequestContext)
    (hv : '-' ∉ v.data) (ht : '-' ∉ t.data) (hs : '-' ∉ s.data)
    (hf : '-' ∉ f.data) :
    before_req (some (v ++ "-" ++ t ++ "-" ++ s ++ "-" ++ f)) eid ctx =
      .ok ⟨some t, some s, eid⟩ := by
  simp [before_req, pyStrTruthy_four, pySplit_four v t s f hv ht hs hf]

/-- Witness for C5 at the spec's end-to-end scenario 2 header. -/
theorem parse_wellformed_header_witness :
    before_req (some "00-4bf92f3577b34da6a3ce929d0e0e4736-00f067aa0ba902b7-01")
      (some "exec-1") ⟨none, none, none⟩ =
      .ok ⟨some "4bf92f3577b34da6a3ce929d0e0e4736", some "00f067aa0ba902b7",
        some "exec-1"⟩ :=
  parse_wellformed_header "00" "4bf92f3577b34da6a3ce929d0e0e4736"
    "00f067aa0ba902b7" "01" (some "exec-1") ⟨none, none, none⟩
    (by decide) (by decide) (by decide) (by decide)

/-- C6 counterexample: three generic console handlers and no backend
handler do not match the spec's duplicate pattern, yet the code still
removes the first two, changing the handler count. -/
theorem remove_dup_handlers_cex :
    dupPattern [⟨true, false⟩, ⟨true, false⟩, ⟨true, false⟩] = false ∧
    (remove_dup_handlers [⟨true, false⟩, ⟨true, false⟩, ⟨true, false⟩]).length ≠
      ([⟨true, false⟩, ⟨true, false⟩, ⟨true, false⟩] : List Handler).length := by
  decide

/-- C6 (amended): whenever the list has more than two handlers and the
first two are stream handlers, exactly those two are removed — regardless
of what follows them; with two or fewer handlers, or a first pair that is
not two stream handlers, the list is unchanged. -/
theorem remove_dup_handlers_behavior :
    (∀ (h0 h1 h2 : Handler) (rest : List Handler),
      h0.isStreamHandler = true → h1.isStreamHandler = true →
      remove_dup_handlers (h0 :: h1 :: h2 :: rest) = h2 :: rest) ∧
    (∀ hs : List Handler, hs.length ≤ 2 → remove_dup_handlers hs = hs) ∧
    (∀ (h0 h1 : Handler) (rest : List Handler),
      (h0.isStreamHandler && h1.isStreamHandler) = false →
      remove_dup_handlers (h0 :: h1 :: rest) = h0 :: h1 :: rest) := by
  refine ⟨fun h0 h1 h2 rest hh0 hh1 => ?_, fun hs hlen => ?_,
    fun h0 h1 rest hcond => ?_⟩
  · simp [remove_dup_handlers, hh0, hh1]
  · match hs with
    | [] => rfl
    | [_] => rfl
    | [_, _] => rfl
    | _ :: _ :: _ :: _ => simp at hlen
  · cases rest with
    | nil => rfl
    | cons h2 rest => simp [remove_dup_handlers, hcond]

/-- Witness for C6 (amended): removal on the duplicate layout, no-ops on a
single handler and on a non-matching first pair. -/
theorem remove_dup_handlers_behavior_witness :
    remove_dup_handlers [⟨true, false⟩, ⟨true, false⟩, ⟨false, true⟩] =
      [⟨false, true⟩] ∧
    remove_dup_handlers [⟨false, true⟩] = [⟨false, true⟩] ∧
    remove_dup_handlers [⟨false, true⟩, ⟨true, false⟩, ⟨true, false⟩] =
      [⟨false, true⟩, ⟨true, false⟩, ⟨true, false⟩] :=
  ⟨remove_dup_handlers_behavior.1 ⟨true, false⟩ ⟨true, false⟩ ⟨false, true⟩ []
      rfl rfl,
   remove_dup_handlers_behavior.2.1 [⟨false, true⟩] (by decide),
   remove_dup_handlers_behavior.2.2 ⟨false, true⟩ ⟨true, false⟩
      [⟨true, false⟩] rfl⟩

/-- C7: the factory is a pure enrichment — the base record is exactly the
wrapped constructor's output, and each conditional attribute is omitted
whenever its request-context field is not truthy. -/
theorem new_log_factory_pure_enrichment {A B : Type} (old : A → B)
    (fctx : FunctionContext) (rctx : RequestContext) (args : A) :
    (new_log_factory old fctx rctx args).base = old args ∧
    (pyTruthyOpt rctx.trace = false →
      (new_log_factory old fctx rctx args).trace = none) ∧
    (pyTruthyOpt rctx.span_id = false →
      (new_log_factory old fctx rctx args).span_id = none) ∧
    (pyTruthyOpt rctx.execution_id = false →
      (new_log_factory old fctx rctx args).labels = none) := by
  refine ⟨?_, fun htr => ?_, fun hsp => ?_, fun hex => ?_⟩
  · cases hx : rctx.execution_id <;>
      simp [new_log_factory, hx] <;> split_ifs <;> rfl
  · cases hx : rctx.execution_id <;>
      simp [new_log_factory, hx, htr] <;> split_ifs <;> rfl
  · cases hx : rctx.execution_id <;>
      simp [new_log_factory, hx, hsp] <;> split_ifs <;> rfl
  · cases hx : rctx.execution_id with
    | none => simp [new_log_factory, hx] <;> split_ifs <;> rfl
    | some eid =>
      rw [hx] at hex
      simp only [pyTruthyOpt] at hex
      simp [new_log_factory, hx, hex] <;> split_ifs <;> rfl

/-- Witness for C7 with a concrete constructor and an empty request
context. -/
theorem new_log_factory_pure_enrichment_witness :
    (new_log_factory (fun n : Nat => n + 1) ⟨none, none, none, none⟩
      ⟨none, none, none⟩ 5).base = 6 ∧
    (new_log_factory (fun n : Nat => n + 1) ⟨none, none, none, none⟩
      ⟨none, none, none⟩ 5).trace = none ∧
    (new_log_factory (fun n : Nat => n + 1) ⟨none, none, none, none⟩
      ⟨none, none, none⟩ 5).span_id = none ∧
    (new_log_factory (fun n : Nat => n + 1) ⟨none, none, none, none⟩
      ⟨none, none, none⟩ 5).labels = none :=
  ⟨(new_log_factory_pure_enrichment (fun n : Nat => n + 1)
      ⟨none, none, none, none⟩ ⟨none, none, none⟩ 5).1,
   (new_log_factory_pure_enrichment (fun n : Nat => n + 1)
      ⟨none, none, none, none⟩ ⟨none, none, none⟩ 5).2.1 rfl,
   (new_log_factory_pure_enrichment (fun n : Nat => n + 1)
      ⟨none, none, none, none⟩ ⟨none, none, none⟩ 5).2.2.1 rfl,
   (new_log_factory_pure_enrichment (fun n : Nat => n + 1)
      ⟨none, none, none, none⟩ ⟨none, none, none⟩ 5).2.2.2 rfl⟩

/-- C8 counterexample: two flows interleaved on the same OS thread share
one thread-local slot, so flow A's read observes flow B's values. -/
theorem thread_local_same_thread_cex :
    threadLocalGet
      (threadLocalSet
        (threadLocalSet (fun _ => ⟨none, none, none⟩) 0
          ⟨some "trace-a", some "span-a", some "exec-a"⟩)
        0 ⟨some "trace-b", some "span-b", some "exec-b"⟩) 0 =
      ⟨some "trace-b", some "span-b", some "exec-b"⟩ := rfl

/-- C8 (amended): thread-local storage isolates flows that run on distinct
OS threads — a set on one thread never changes what another thread reads;
isolation does not extend to flows sharing a thread. -/
theorem thread_local_distinct_threads_isolated (store : ThreadLocal)
    (tidA tidB : Nat) (ctxB : RequestContext) (h : tidA ≠ tidB) :
    threadLocalGet (threadLocalSet store tidB ctxB) tidA =
      threadLocalGet store tidA := by
  simp [threadLocalGet, threadLocalSet, h]

/-- Witness for C8 (amended) on threads 0 and 1. -/
theorem thread_local_distinct_threads_isolated_witness :
    (0 : Nat) ≠ 1 ∧
    threadLocalGet (threadLocalSet (fun _ => ⟨none, none, none⟩) 1
      ⟨some "trace-b", some "span-b", some "exec-b"⟩) 0 =
      threadLocalGet (fun _ => ⟨none, none, none⟩) 0 :=
  ⟨by decide,
    thread_local_distinct_threads_isolated (fun _ => ⟨none, none, none⟩) 0 1
      ⟨some "trace-b", some "span-b", some "exec-b"⟩ (by decide)⟩

/-- C9: a request-context field equal to the empty string is present but
falsy, so the corresponding attribute is not attached. -/
theorem empty_string_treated_absent {A B : Type} (old : A → B)
    (fctx : FunctionContext) (rctx : RequestContext) (args : A)
    (ht : rctx.trace = some "") (hs : rctx.span_id = some "")
    (he : rctx.execution_id = some "") :
    (new_log_factory old fctx rctx args).trace = none ∧
    (new_log_factory old fctx rctx args).span_id = none ∧
    (new_log_factory old fctx rctx args).labels = none := by
  simp [new_log_factory, ht, hs, he, pyTruthyOpt, pyStrTruthy]

/-- Witness for C9 with all three fields set to the empty string. -/
theorem empty_string_treated_absent_witness :
    (new_log_factory (fun n : Nat => n) ⟨none, none, none, none⟩
      ⟨some "", some "", some ""⟩ 0).trace = none ∧
    (new_log_factory (fun n : Nat => n) ⟨none, none, none, none⟩
      ⟨some "", some "", some ""⟩ 0).span_id = none ∧
    (new_log_factory (fun n : Nat => n) ⟨none, none, none, none⟩
      ⟨some "", some "", some ""⟩ 0).labels = none :=
  empty_string_treated_absent (fun n : Nat => n) ⟨none, none, none, none⟩
    ⟨some "", some "", some ""⟩ 0 rfl rfl rfl

/-- C10: `LogFactory` ignores its name argument — any two names yield the
same logger (the module's own), whose level is `DEBUG` when the debug flag
is set and the given level otherwise. -/
theorem LogFactory_ignores_name (n1 n2 : String) (log_level : Nat)
    (debug : Bool) :
    LogFactory n1 log_level debug = LogFactory n2 log_level debug ∧
    (LogFactory n1 log_level debug).name = moduleName ∧
    (LogFactory n1 log_level true).level = DEBUG ∧
    (LogFactory n1 log_level false).level = log_level :=
  ⟨rfl, rfl, rfl, rfl⟩

end LoggingUtil
